import Mathlib

/-!
Shallow embedding of the WhatsApp instance registry and event-distribution
layer (`whatsmeow/internal/whatsapp/client.go`): the `Manager` data model,
the lifecycle operations (`Connect`, `ConnectWithPairingCode`, `Disconnect`,
`Logout`), the event-handler state transitions, the event bus
(`Subscribe` / `publishEvent`), the message cache (`storeMessage` /
`GetChatMessages`) and the outbound send operations.

Go maps are embedded as association lists (`List (String × α)`); calls into
the external whatsmeow protocol library are embedded as a pure oracle
(`Lib`) whose outcomes parametrise the operations, and every library call an
operation performs is recorded in an explicit `Effect` trace so that
"performs no network call" is a statement about the trace.
-/

set_option maxHeartbeats 1000000

/-- Go map lookup `m[k]` on the association-list embedding. -/
def mapLookup {α : Type} (l : List (String × α)) (k : String) : Option α :=
  match l with
  | [] => none
  | (k', v) :: rest => if k' = k then some v else mapLookup rest k

/-- The embedding of `delete(m, k)` on a Go map: drop every binding of `k`
(keys are unique in a Go map, so dropping all of them is `delete`). -/
def mapErase {α : Type} (l : List (String × α)) (k : String) :
    List (String × α) :=
  l.filter (fun p => decide (p.1 ≠ k))

/-- Replace the binding of `k` (erasing any shadowed duplicates; keys are
unique in a Go map) or append a new one: the embedding of `m[k] = v`. -/
def mapInsert {α : Type} (l : List (String × α)) (k : String) (v : α) :
    List (String × α) :=
  match l with
  | [] => [(k, v)]
  | (k', v') :: rest =>
      if k' = k then (k, v) :: mapErase rest k
      else (k', v') :: mapInsert rest k v

/-- `Instance` (client.go): one WhatsApp connection instance. `storeID`
models `Client.Store.ID` — the paired device identity (`none` = unpaired);
the rest are the mutable fields the manager reads and writes. Settings and
proxy fields are carried for completeness. -/
structure Instance where
  id : String
  status : String
  qrCode : String := ""
  qrCodeBase64 : String := ""
  pairingCode : String := ""
  waNumber : String := ""
  waName : String := ""
  storeID : Option String := none
  rejectCalls : Bool := false
  alwaysOnline : Bool := false
  ignoreGroups : Bool := false
  syncHistory : Bool := false
  readMessages : Bool := false
  deriving Repr, DecidableEq

/-- `Event` (client.go): the typed event published on the event bus.
`Data interface{}` is embedded as an opaque string payload — no claim
inspects the payload's structure. -/
structure Event where
  type : String
  instanceId : String
  data : String := ""
  timestamp : Int := 0
  deriving Repr, DecidableEq

/-- `MessageData` (client.go), restricted to the fields the cache claims
can observe; the remaining fields are payload carried unchanged. -/
structure MessageData where
  id : String := ""
  from_ : String := ""
  to_ : String := ""
  body : String := ""
  type : String := ""
  timestamp : Int := 0
  fromMe : Bool := false
  isGroup : Bool := false
  deriving Repr, DecidableEq

/-- A bounded Go channel (`make(chan Event, 100)`): capacity plus the
buffered events, oldest first. -/
structure Chan where
  capacity : Nat
  buf : List Event := []
  deriving Repr, DecidableEq

/-- `Manager` (client.go): the instance registry. `instances` is the
in-memory registry map, `mapping` the durable instance-id → JID-string
`SessionMapping` (persisted via `saveMapping`), `messages` the per-instance
per-chat message cache, `eventSubs` the event-bus subscriber lists. -/
structure Manager where
  instances : List (String × Instance) := []
  mapping : List (String × String) := []
  messages : List (String × List (String × List MessageData)) := []
  eventSubs : List (String × List Chan) := []
  deriving Repr, DecidableEq

def emptyManager : Manager := {}

def Manager.setInstance (m : Manager) (instanceID : String) (inst : Instance) :
    Manager :=
  { m with instances := mapInsert m.instances instanceID inst }

/-- One entry of the `IsOnWhatsApp` response: resolved JID, its user part,
and whether the number is registered. -/
structure IsOnWAUser where
  jid : String
  user : String
  isIn : Bool
  deriving Repr, DecidableEq

/-- A call into the external whatsmeow library (network I/O), recorded in
the order the operation performs it. -/
inductive Effect where
  | libConnect
  | libDisconnect
  | libLogout
  | isOnWhatsApp (number : String)
  | pairPhone (phone : String)
  | getUserDevices (jid : String)
  | fetchMedia (url : String)
  | upload
  | sendMessage (jid : String)
  | sendChatPresence (jid : String)
  deriving Repr, DecidableEq

/-- Oracle for the external whatsmeow library: the outcome each library
call would produce. The operations are parametrised by it, so theorems
quantify over every possible library behaviour. -/
structure Lib where
  connect : Except String Unit := .ok ()
  logout : Except String Unit := .ok ()
  isConnectedPre : Bool := true
  isConnectedPost : Bool := true
  pairPhone : String → Except String String := fun _ => .ok "CODECODE"
  isOnWhatsApp : String → Except String (List IsOnWAUser) := fun _ => .ok []
  parseJID : String → Except String String := fun s => .ok s
  fetchMedia : String → Except String String := fun _ => .ok ""
  upload : Except String Unit := .ok ()
  sendMessage : String → Except String String := fun _ => .ok ""
  sendChatPresence : Except String Unit := .ok ()
  getDeviceFound : String → Bool := fun _ => false
  now : Int := 0

/-! ## Message cache (`storeMessage` / `GetChatMessages`) -/

/-- The per-chat list update inside `Manager.storeMessage` (client.go
2082-2087): append, then if the list exceeds 500 entries keep only the
last 500 (`msgs = msgs[len(msgs)-500:]`). -/
def storeMessageList (msgs : List MessageData) (msg : MessageData) :
    List MessageData :=
  if (msgs ++ [msg]).length > 500 then
    (msgs ++ [msg]).drop ((msgs ++ [msg]).length - 500)
  else msgs ++ [msg]

/-- `Manager.storeMessage` (client.go 2074-2089): store a message under
`(instanceID, chatID)`, creating the inner map when absent. -/
def Manager.storeMessage (m : Manager) (instanceID chatID : String)
    (msg : MessageData) : Manager :=
  let chatMap := (mapLookup m.messages instanceID).getD []
  let msgs := (mapLookup chatMap chatID).getD []
  { m with
    messages := mapInsert m.messages instanceID
      (mapInsert chatMap chatID (storeMessageList msgs msg)) }

/-- The stored per-chat list for a key (empty when the instance or chat has
no entry, matching the Go nil-map reads). -/
def chatMessages (m : Manager) (instanceID chatID : String) :
    List MessageData :=
  (mapLookup ((mapLookup m.messages instanceID).getD []) chatID).getD []

/-- `Manager.GetChatMessages` (client.go 2092-2111): returns the last
`limit` stored messages when `limit > 0` and more are stored, otherwise
all of them; missing instance or chat yields an empty list, and the error
result is always nil. -/
def GetChatMessages (m : Manager) (instanceID chatID : String) (limit : Int) :
    Except String (List MessageData) :=
  match mapLookup m.messages instanceID with
  | none => .ok []
  | some chatMap =>
    match mapLookup chatMap chatID with
    | none => .ok []
    | some msgs =>
      if 0 < limit ∧ limit < (msgs.length : Int) then
        .ok (msgs.drop (msgs.length - limit.toNat))
      else
        .ok msgs

/-! ## Number and identifier cleaning helpers -/

/-- `strings.TrimPrefix(s, "+")`: drop the leading `+` when present
(written on the character list so that it reduces definitionally). -/
def trimPlus (s : String) : String :=
  match s.data with
  | '+' :: rest => String.mk rest
  | _ => s

/-- `strings.ReplaceAll(s, string(c), "")`: remove every occurrence of a
single character. -/
def removeChar (s : String) (c : Char) : String :=
  String.mk (s.data.filter (fun x => decide (x ≠ c)))

/-- The recurring number cleaning: drop a leading `+`, remove spaces and
dashes. -/
def cleanNumber (s : String) : String :=
  removeChar (removeChar (trimPlus s) ' ') '-'

/-- Append `@s.whatsapp.net` when the identifier has no server part
(`strings.Contains(s, "@")`). -/
def ensureServer (s : String) : String :=
  if '@' ∈ s.data then s else s ++ "@s.whatsapp.net"

/-- `strings.TrimSuffix(s, "@s.whatsapp.net")`. -/
def trimServer (s : String) : String :=
  if 15 ≤ s.data.length ∧
      s.data.drop (s.data.length - 15) = "@s.whatsapp.net".data then
    String.mk (s.data.take (s.data.length - 15))
  else s

/-- Format an 8-character pairing code as `XXXX-XXXX`. -/
def formatPairingCode (code : String) : String :=
  if code.length = 8 then code.take 4 ++ "-" ++ code.drop 4 else code

/-! ## Event bus (`Subscribe` / `publishEvent`) -/

/-- `Manager.Subscribe` (client.go 1838-1845): allocate a capacity-100
channel and append it to the subscriber list of the instance id. -/
def Subscribe (m : Manager) (instanceID : String) : Chan × Manager :=
  let ch : Chan := { capacity := 100 }
  (ch,
   { m with
     eventSubs := mapInsert m.eventSubs instanceID
       (((mapLookup m.eventSubs instanceID).getD []) ++ [ch]) })

/-- Stamp `time.Now().Unix()` onto an event carrying no timestamp
(client.go 1864-1866). -/
def stampEvent (now : Int) (e : Event) : Event :=
  if e.timestamp = 0 then { e with timestamp := now } else e

/-- The non-blocking `select { case ch <- evt: default: }` send: deliver
when the buffer has free capacity, otherwise drop the event. -/
def chanTrySend (c : Chan) (e : Event) : Chan :=
  if c.buf.length < c.capacity then { c with buf := c.buf ++ [e] } else c

/-- `Manager.publishEvent` (client.go 1863-1879): stamp the timestamp,
look up the subscribers of `evt.instanceId`, and try a non-blocking send
to each; an id with no subscriber list leaves the state unchanged. -/
def publishEvent (now : Int) (m : Manager) (evt : Event) : Manager :=
  match mapLookup m.eventSubs evt.instanceId with
  | none => m
  | some subs =>
    { m with
      eventSubs := mapInsert m.eventSubs evt.instanceId
        (subs.map (fun c => chanTrySend c (stampEvent now evt))) }

/-! ## Event-handler state transitions (`setupEventHandlers`) -/

/-- The state mutation of the `events.QR` case (client.go 291-303). -/
def onQR (inst : Instance) (qrCode qrBase64 : String) : Instance :=
  { inst with status := "qr", qrCode := qrCode, qrCodeBase64 := qrBase64 }

/-- The state mutation of the `events.Connected` case (client.go 328-337):
status becomes `connected`, the two QR fields are cleared, and
`waNumber` / `waName` are refreshed from the library store (`storeID`
models `Client.Store.ID`, `pushName` models `Client.Store.PushName`).
The handler then publishes a `ready` event via `publishEvent`. -/
def onConnected (inst : Instance) (storeID : Option String)
    (pushName : String) : Instance :=
  { inst with
    status := "connected"
    qrCode := ""
    qrCodeBase64 := ""
    waNumber := storeID.getD inst.waNumber
    waName := pushName }

/-- The state mutation of the `events.Disconnected` case (client.go
349-352): only the status changes; the handler then publishes a
`disconnected` event. -/
def onDisconnected (inst : Instance) : Instance :=
  { inst with status := "disconnected" }

/-- The state mutation of the `events.LoggedOut` case (client.go 361-366):
status `disconnected` and `waNumber` / `waName` cleared. -/
def onLoggedOut (inst : Instance) : Instance :=
  { inst with status := "disconnected", waNumber := "", waName := "" }

/-! ## Lifecycle operations -/

/-- A freshly constructed `Instance` (status `disconnected`): restored
from the store (`storeID = some jid`) or on a brand-new unpaired device
(`storeID = none`). -/
def newInstance (instanceID : String) (storeID : Option String) : Instance :=
  { id := instanceID, status := "disconnected", storeID := storeID }

/-- `Manager.GetOrCreateInstance` (client.go 232-285): return the live
instance when present; else, when a mapping entry exists and its device
loads from the store, rehydrate it; else construct a brand-new device. -/
def GetOrCreateInstance (lib : Lib) (m : Manager) (instanceID : String) :
    Instance × Manager :=
  match mapLookup m.instances instanceID with
  | some inst => (inst, m)
  | none =>
    match mapLookup m.mapping instanceID with
    | some jidStr =>
      if lib.getDeviceFound jidStr then
        (newInstance instanceID (some jidStr),
         m.setInstance instanceID (newInstance instanceID (some jidStr)))
      else
        (newInstance instanceID none,
         m.setInstance instanceID (newInstance instanceID none))
    | none =>
      (newInstance instanceID none,
       m.setInstance instanceID (newInstance instanceID none))

/-- `Manager.Connect` (client.go 767-807): no-op returning the instance
when already `connected`; otherwise status `connecting`, then
`Client.Connect()` — identical in the paired and unpaired branches — and
on failure status `disconnected` plus a wrapped error. -/
def Connect (lib : Lib) (m : Manager) (instanceID : String) :
    Except String Instance × Manager × List Effect :=
  match GetOrCreateInstance lib m instanceID with
  | (inst, m1) =>
    if inst.status = "connected" then (.ok inst, m1, [])
    else
      let inst1 := { inst with status := "connecting" }
      let m2 := m1.setInstance instanceID inst1
      match lib.connect with
      | .ok _ => (.ok inst1, m2, [.libConnect])
      | .error e =>
        (.error ("failed to connect: " ++ e),
         m2.setInstance instanceID { inst1 with status := "disconnected" },
         [.libConnect])

/-- The tail of `ConnectWithPairingCode` once `Client.Connect` has been
skipped or has succeeded (client.go 853-897): the bounded-wait
`IsConnected` check, the `PairPhone` request, code formatting, and the
`pairing_code` event. -/
def requestPairingCode (lib : Lib) (m2 : Manager) (inst : Instance)
    (instanceID phone : String) (effs : List Effect) :
    Except String String × Manager × List Effect :=
  if lib.isConnectedPost then
    match lib.pairPhone phone with
    | .error e =>
      (.error ("failed to get pairing code: " ++ e),
       m2.setInstance instanceID { inst with status := "disconnected" },
       effs ++ [.pairPhone phone])
    | .ok code =>
      (.ok (formatPairingCode code),
       publishEvent lib.now
         (m2.setInstance instanceID
           { inst with
             status := "pairing", pairingCode := formatPairingCode code })
         { type := "pairing_code", instanceId := instanceID,
           data := formatPairingCode code },
       effs ++ [.pairPhone phone])
  else
    (.error "failed to establish connection to WhatsApp servers",
     m2.setInstance instanceID { inst with status := "disconnected" }, effs)

/-- `Manager.ConnectWithPairingCode` (client.go 810-898): rejected when
already `connected` or already paired (`Store.ID != nil`); else the phone
number is cleaned, status becomes `pairing`, the transport is connected
when not yet live, and the pairing code is requested. -/
def ConnectWithPairingCode (lib : Lib) (m : Manager)
    (instanceID phoneNumber : String) :
    Except String String × Manager × List Effect :=
  match GetOrCreateInstance lib m instanceID with
  | (inst, m1) =>
    if inst.status = "connected" then (.error "already connected", m1, [])
    else if inst.storeID.isSome then
      (.error "already has a session, use QR code or disconnect first",
       m1, [])
    else
      let phone := cleanNumber phoneNumber
      let m2 := m1.setInstance instanceID { inst with status := "pairing" }
      if lib.isConnectedPre then
        requestPairingCode lib m2 inst instanceID phone []
      else
        match lib.connect with
        | .error e =>
          (.error ("failed to connect: " ++ e),
           m2.setInstance instanceID { inst with status := "disconnected" },
           [.libConnect])
        | .ok _ =>
          requestPairingCode lib m2 inst instanceID phone [.libConnect]

/-- `Manager.Disconnect` (client.go 964-980): not-found error for unknown
ids (no state change); otherwise tear down the transport and set status
`disconnected`, all other fields untouched. -/
def Disconnect (m : Manager) (instanceID : String) :
    Except String Unit × Manager × List Effect :=
  match mapLookup m.instances instanceID with
  | none => (.error ("instance " ++ instanceID ++ " not found"), m, [])
  | some inst =>
    (.ok (),
     m.setInstance instanceID { inst with status := "disconnected" },
     [.libDisconnect])

/-- `Manager.Logout` (client.go 983-1005): not-found error for unknown
ids; library logout, then transport disconnect, then removal of the
instance from the registry map. A logout error returns before the
disconnect and the removal. The durable `mapping` is never touched. -/
def Logout (lib : Lib) (m : Manager) (instanceID : String) :
    Except String Unit × Manager × List Effect :=
  match mapLookup m.instances instanceID with
  | none => (.error ("instance " ++ instanceID ++ " not found"), m, [])
  | some _ =>
    match lib.logout with
    | .error e => (.error ("failed to logout: " ++ e), m, [.libLogout])
    | .ok _ =>
      (.ok (), { m with instances := mapErase m.instances instanceID },
       [.libLogout, .libDisconnect])

/-! ## Outbound send operations

Each operation returns its result together with the trace of library
calls it performed. Payload construction (link previews, media payload
switches, presence kinds, poll bodies) is elided where it cannot change
the control flow or the trace of the operation. -/

/-- `Manager.SendTextMessage` (client.go 1199-1298). -/
def SendTextMessage (lib : Lib) (m : Manager)
    (instanceID to_ _text : String) : Except String String × List Effect :=
  match mapLookup m.instances instanceID with
  | none => (.error ("instance " ++ instanceID ++ " not found"), [])
  | some inst =>
    if inst.status ≠ "connected" then
      (.error ("instance not connected (status: " ++ inst.status ++ ")"), [])
    else
      let to1 := trimPlus to_
      match lib.isOnWhatsApp to1 with
      | .error e =>
        (.error ("failed to check if user is on WhatsApp: " ++ e),
         [.isOnWhatsApp to1])
      | .ok [] =>
        (.error ("user " ++ to1 ++ " not on WhatsApp"), [.isOnWhatsApp to1])
      | .ok (u :: _) =>
        if u.user = "" then
          (.error ("received empty JID for user " ++ to1),
           [.isOnWhatsApp to1])
        else
          match lib.sendMessage u.jid with
          | .error e =>
            (.error ("whatsmeow send error: " ++ e),
             [.isOnWhatsApp to1, .sendMessage u.jid])
          | .ok msgId =>
            (.ok msgId, [.isOnWhatsApp to1, .sendMessage u.jid])

/-- `Manager.SendPresence` (client.go 1301-1357). -/
def SendPresence (lib : Lib) (m : Manager)
    (instanceID to_ _presence : String) : Except String Unit × List Effect :=
  match mapLookup m.instances instanceID with
  | none => (.error ("instance " ++ instanceID ++ " not found"), [])
  | some inst =>
    if inst.status ≠ "connected" then (.error "instance not connected", [])
    else
      let to1 := trimPlus to_
      match lib.isOnWhatsApp to1 with
      | .error e =>
        (.error ("failed to check user: " ++ e), [.isOnWhatsApp to1])
      | .ok [] =>
        (.error ("user " ++ to1 ++ " not on WhatsApp"), [.isOnWhatsApp to1])
      | .ok (u :: _) =>
        match lib.sendChatPresence with
        | .error e =>
          (.error ("failed to send presence: " ++ e),
           [.isOnWhatsApp to1, .sendChatPresence u.jid])
        | .ok _ => (.ok (), [.isOnWhatsApp to1, .sendChatPresence u.jid])

/-- `Manager.SendMediaMessage` (client.go 1360-1532). NOTE: unlike every
other send operation, the source performs no connected-status check — it
resolves the recipient via `IsOnWhatsApp` straight after the registry
lookup. Media acquisition (data-URI decode or HTTP download), the upload
and the payload-type switch are collapsed into oracle calls; their
internals affect only payload and error text, not whether network calls
happen. -/
def SendMediaMessage (lib : Lib) (m : Manager)
    (instanceID to_ mediaUrl _caption _mediaType : String) :
    Except String String × List Effect :=
  match mapLookup m.instances instanceID with
  | none => (.error ("instance " ++ instanceID ++ " not found"), [])
  | some _ =>
    let to1 := trimPlus to_
    match lib.isOnWhatsApp to1 with
    | .error _ =>
      (.error ("user " ++ to1 ++ " not on WhatsApp"), [.isOnWhatsApp to1])
    | .ok [] =>
      (.error ("user " ++ to1 ++ " not on WhatsApp"), [.isOnWhatsApp to1])
    | .ok (u :: _) =>
      match lib.fetchMedia mediaUrl with
      | .error e => (.error e, [.isOnWhatsApp to1, .fetchMedia mediaUrl])
      | .ok _ =>
        match lib.upload with
        | .error e =>
          (.error ("failed to upload media: " ++ e),
           [.isOnWhatsApp to1, .fetchMedia mediaUrl, .upload])
        | .ok _ =>
          match lib.sendMessage u.jid with
          | .error e =>
            (.error ("failed to send media message: " ++ e),
             [.isOnWhatsApp to1, .fetchMedia mediaUrl, .upload,
              .sendMessage u.jid])
          | .ok msgId =>
            (.ok msgId,
             [.isOnWhatsApp to1, .fetchMedia mediaUrl, .upload,
              .sendMessage u.jid])

/-- `Manager.SendLocationMessage` (client.go 1535-1586); coordinates and
description only shape the payload. -/
def SendLocationMessage (lib : Lib) (m : Manager) (instanceID to_ : String)
    (_latitude _longitude : Int) (_description : String) :
    Except String String × List Effect :=
  match mapLookup m.instances instanceID with
  | none => (.error "instance not found", [])
  | some inst =>
    if inst.status ≠ "connected" then (.error "instance not connected", [])
    else
      let to1 := ensureServer (cleanNumber to_)
      match lib.parseJID to1 with
      | .error e => (.error ("invalid JID: " ++ e), [])
      | .ok jid =>
        match lib.sendMessage jid with
        | .error e =>
          (.error ("failed to send location: " ++ e), [.sendMessage jid])
        | .ok msgId => (.ok msgId, [.sendMessage jid])

/-- `Manager.SendPollMessage` (client.go 1589-1641); a `GetUserDevices`
failure only logs a warning, the send proceeds either way. -/
def SendPollMessage (lib : Lib) (m : Manager)
    (instanceID to_ _question : String) (_options : List String)
    (_selectableCount : Int) : Except String String × List Effect :=
  match mapLookup m.instances instanceID with
  | none => (.error "instance not found", [])
  | some inst =>
    if inst.status ≠ "connected" then (.error "instance not connected", [])
    else
      let to1 := ensureServer (cleanNumber to_)
      match lib.parseJID to1 with
      | .error e => (.error ("invalid JID: " ++ e), [])
      | .ok jid =>
        match lib.sendMessage jid with
        | .error e =>
          (.error ("failed to send poll: " ++ e),
           [.getUserDevices jid, .sendMessage jid])
        | .ok msgId => (.ok msgId, [.getUserDevices jid, .sendMessage jid])

/-- The LID-resolution probe of Edit/React (client.go 1672-1680): an
`IsOnWhatsApp` failure only logs a warning and the parsed JID is kept; a
registered (`IsIn`) result replaces it. -/
def resolveChatJID (lib : Lib) (probe jid0 : String) : String :=
  match lib.isOnWhatsApp probe with
  | .error _ => jid0
  | .ok [] => jid0
  | .ok (u :: _) => if u.isIn then u.jid else jid0

/-- `Manager.EditMessage` (client.go 1644-1712). -/
def EditMessage (lib : Lib) (m : Manager)
    (instanceID chatID _messageID _newText : String) :
    Except String String × List Effect :=
  match mapLookup m.instances instanceID with
  | none => (.error "instance not found", [])
  | some inst =>
    if inst.status ≠ "connected" then (.error "instance not connected", [])
    else
      let chat1 := ensureServer (cleanNumber chatID)
      match lib.parseJID chat1 with
      | .error e => (.error ("invalid chat JID: " ++ e), [])
      | .ok jid0 =>
        match lib.sendMessage (resolveChatJID lib (trimServer chat1) jid0) with
        | .error e =>
          (.error ("failed to edit message: " ++ e),
           [.isOnWhatsApp (trimServer chat1),
            .sendMessage (resolveChatJID lib (trimServer chat1) jid0)])
        | .ok msgId =>
          (.ok msgId,
           [.isOnWhatsApp (trimServer chat1),
            .sendMessage (resolveChatJID lib (trimServer chat1) jid0)])

/-- `Manager.ReactToMessage` (client.go 1715-1775). -/
def ReactToMessage (lib : Lib) (m : Manager)
    (instanceID chatID _messageID _reaction : String) :
    Except String Unit × List Effect :=
  match mapLookup m.instances instanceID with
  | none => (.error "instance not found", [])
  | some inst =>
    if inst.status ≠ "connected" then (.error "instance not connected", [])
    else
      let chat1 := ensureServer (cleanNumber chatID)
      match lib.parseJID chat1 with
      | .error e => (.error ("invalid chat JID: " ++ e), [])
      | .ok jid0 =>
        match lib.sendMessage (resolveChatJID lib (trimServer chat1) jid0) with
        | .error e =>
          (.error ("failed to send reaction: " ++ e),
           [.isOnWhatsApp (trimServer chat1),
            .sendMessage (resolveChatJID lib (trimServer chat1) jid0)])
        | .ok _ =>
          (.ok (),
           [.isOnWhatsApp (trimServer chat1),
            .sendMessage (resolveChatJID lib (trimServer chat1) jid0)])

/-- `Manager.DeleteMessage` (client.go 1778-1835): the probe's resolved
JID is only logged (client.go 1810-1811) — the revoke is always sent to
the parsed chat JID. -/
def DeleteMessage (lib : Lib) (m : Manager)
    (instanceID chatID _messageID : String) (_forEveryone : Bool) :
    Except String Unit × List Effect :=
  match mapLookup m.instances instanceID with
  | none => (.error "instance not found", [])
  | some inst =>
    if inst.status ≠ "connected" then (.error "instance not connected", [])
    else
      let chat1 := ensureServer (cleanNumber chatID)
      match lib.parseJID chat1 with
      | .error e => (.error ("invalid chat JID: " ++ e), [])
      | .ok jid0 =>
        match lib.sendMessage jid0 with
        | .error e =>
          (.error ("failed to delete message: " ++ e),
           [.isOnWhatsApp (trimServer chat1), .sendMessage jid0])
        | .ok _ =>
          (.ok (), [.isOnWhatsApp (trimServer chat1), .sendMessage jid0])

/-! ## Concrete fixtures -/

/-- A library oracle where every call succeeds (the structure defaults). -/
def libOk : Lib := {}

/-- A library oracle whose logout call fails. -/
def libLogoutFails : Lib := { logout := .error "logout boom" }

/-- A library oracle that resolves every number and completes every media
step. -/
def libResolves : Lib :=
  { isOnWhatsApp := fun n =>
      .ok [{ jid := n ++ "@s.whatsapp.net", user := n, isIn := true }]
    fetchMedia := fun _ => .ok "image/png"
    sendMessage := fun _ => .ok "MSGID1" }

def instConnectedA : Instance :=
  { id := "a", status := "connected",
    storeID := some "5511999@s.whatsapp.net", waNumber := "5511999" }

def instDiscB : Instance :=
  { id := "b", status := "disconnected",
    storeID := some "5522888@s.whatsapp.net" }

def mgrAB : Manager :=
  { instances := [("a", instConnectedA), ("b", instDiscB)]
    mapping := [("a", "5511999:1@s.whatsapp.net"),
                ("b", "5522888:1@s.whatsapp.net")] }

def msgN (n : Nat) : MessageData := { id := toString n }

def mgrMsgs : Manager :=
  { messages := [("i", [("c", [msgN 1, msgN 2, msgN 3])])] }

def evA : Event :=
  { type := "message", instanceId := "a", data := "x", timestamp := 5 }

def chanFull : Chan := { capacity := 1, buf := [evA] }

def chanFree : Chan := { capacity := 2 }

def mgrSubs : Manager := { eventSubs := [("a", [chanFull, chanFree])] }

def instQR : Instance :=
  { id := "c", status := "qr", qrCode := "QRDATA",
    qrCodeBase64 := "data:image/png;base64,AAAA",
    pairingCode := "ABCD-EFGH" }

/-! ## Association-map lemmas -/

theorem mapLookup_mapErase_self {α : Type} (l : List (String × α))
    (k : String) : mapLookup (mapErase l k) k = none := by
  induction l with
  | nil => rfl
  | cons p rest ih =>
    obtain ⟨a, b⟩ := p
    by_cases ha : a = k
    · simpa [mapErase, List.filter_cons, ha] using ih
    · simpa [mapErase, List.filter_cons, ha, mapLookup] using ih

theorem mapLookup_mapErase_ne {α : Type} (l : List (String × α))
    (k k' : String) (h : k' ≠ k) :
    mapLookup (mapErase l k) k' = mapLookup l k' := by
  induction l with
  | nil => rfl
  | cons p rest ih =>
    obtain ⟨a, b⟩ := p
    by_cases ha : a = k
    · subst ha
      have hak : a ≠ k' := Ne.symm h
      simp only [mapErase, List.filter_cons] at *
      simp [mapLookup, hak]
      simpa [mapErase] using ih
    · by_cases hk : a = k'
      · simp [mapErase, List.filter_cons, ha, mapLookup, hk, h]
      · simp only [mapErase, List.filter_cons] at *
        simp [mapLookup, ha, hk]
        simpa [mapErase] using ih

theorem mapLookup_mapInsert_self {α : Type} (l : List (String × α))
    (k : String) (v : α) : mapLookup (mapInsert l k v) k = some v := by
  induction l with
  | nil => simp [mapInsert, mapLookup]
  | cons p rest ih =>
    obtain ⟨a, b⟩ := p
    by_cases ha : a = k
    · simp [mapInsert, ha, mapLookup]
    · simp [mapInsert, ha, mapLookup, ih]

theorem mapLookup_mapInsert_ne {α : Type} (l : List (String × α))
    (k k' : String) (v : α) (h : k' ≠ k) :
    mapLookup (mapInsert l k v) k' = mapLookup l k' := by
  induction l with
  | nil => simp [mapInsert, mapLookup, Ne.symm h]
  | cons p rest ih =>
    obtain ⟨a, b⟩ := p
    by_cases ha : a = k
    · subst ha
      simp [mapInsert, mapLookup, Ne.symm h,
        mapLookup_mapErase_ne rest a k' h]
    · by_cases hk : a = k'
      · simp [mapInsert, ha, mapLookup, hk, h]
      · simp [mapInsert, ha, mapLookup, hk, ih]

/-! ## List lemmas for the 500-entry FIFO cap -/

theorem drop_append_length {α : Type} (A B : List α) (k : Nat) :
    (A ++ B).drop (A.length + k) = B.drop k := by
  induction A with
  | nil => simp
  | cons a A ih => simp [Nat.succ_add, ih]

theorem storeMessageList_eq (s : List MessageData) (x : MessageData) :
    storeMessageList s x = (s ++ [x]).drop ((s ++ [x]).length - 500) := by
  unfold storeMessageList
  split
  · rfl
  · next h =>
    have h0 : (s ++ [x]).length - 500 = 0 := by omega
    rw [h0, List.drop_zero]

theorem storeMessageList_length_le (s : List MessageData) (x : MessageData) :
    (storeMessageList s x).length ≤ 500 := by
  unfold storeMessageList
  split
  · next h =>
    rw [List.length_drop]
    omega
  · next h =>
    omega

/-- Trimming to the last `n` elements before appending more does not change
the last `n` elements of the whole. -/
theorem takeLast_absorb {α : Type} (n : Nat) (P L : List α) :
    (P.drop (P.length - n) ++ L).drop
        ((P.drop (P.length - n) ++ L).length - n)
      = (P ++ L).drop ((P ++ L).length - n) := by
  by_cases h : P.length ≤ n
  · have h0 : P.length - n = 0 := by omega
    simp [h0]
  · push_neg at h
    have hV : (P.drop (P.length - n)).length = n := by
      rw [List.length_drop]
      omega
    have hT : (P.take (P.length - n)).length = P.length - n := by
      rw [List.length_take]
      omega
    have hidx2 : (P.drop (P.length - n) ++ L).length - n = L.length := by
      rw [List.length_append, hV]
      omega
    rw [hidx2]
    have hsplit : P ++ L
        = P.take (P.length - n) ++ (P.drop (P.length - n) ++ L) := by
      rw [← List.append_assoc, List.take_append_drop]
    rw [hsplit]
    have hidx3 :
        (P.take (P.length - n) ++ (P.drop (P.length - n) ++ L)).length - n
          = (P.take (P.length - n)).length + L.length := by
      rw [List.length_append, List.length_append, hT, hV]
      omega
    rw [hidx3, drop_append_length]

theorem foldl_storeMessageList (L s : List MessageData)
    (hs : s.length ≤ 500) :
    L.foldl storeMessageList s = (s ++ L).drop ((s ++ L).length - 500) := by
  induction L generalizing s with
  | nil =>
    have h0 : s.length - 500 = 0 := by omega
    simp [h0]
  | cons x L ih =>
    rw [List.foldl_cons, ih _ (storeMessageList_length_le s x),
      storeMessageList_eq]
    simpa [List.append_assoc] using takeLast_absorb 500 (s ++ [x]) L

theorem chatMessages_store (m : Manager) (i c : String) (x : MessageData) :
    chatMessages (Manager.storeMessage m i c x) i c
      = storeMessageList (chatMessages m i c) x := by
  simp [Manager.storeMessage, chatMessages, mapLookup_mapInsert_self]

theorem chatMessages_foldl (m : Manager) (i c : String)
    (L : List MessageData) :
    chatMessages (L.foldl (fun acc msg => Manager.storeMessage acc i c msg) m)
        i c
      = L.foldl storeMessageList (chatMessages m i c) := by
  induction L generalizing m with
  | nil => rfl
  | cons x L ih => simp [ih, chatMessages_store]

/-- Claim C3 (confirmed): for every key and every sequence of `storeMessage`
calls, the stored per-chat list never exceeds 500 entries — any single
`storeMessage`, from any state, leaves at most 500 — and inserting a
sequence `L` into an empty cache leaves exactly the last 500 elements of
`L` in arrival order (for `L` of length 501 that is the last 500). -/
theorem storeMessage_cap_fifo (m : Manager) (i c : String) (x : MessageData)
    (L : List MessageData) :
    (chatMessages (Manager.storeMessage m i c x) i c).length ≤ 500 ∧
    chatMessages
        (L.foldl (fun acc msg => Manager.storeMessage acc i c msg)
          emptyManager) i c
      = L.drop (L.length - 500) := by
  constructor
  · rw [chatMessages_store]
    exact storeMessageList_length_le _ _
  · rw [chatMessages_foldl]
    have h0 : chatMessages emptyManager i c = [] := rfl
    rw [h0]
    simpa using foldl_storeMessageList L [] (by simp)

/-- Claim C4 (confirmed): `GetChatMessages` never errors; the result is a
suffix of the stored list (chronological arrival order, never more than
stored); for `limit > 0` it is exactly the most recent
`min limit n` entries; and a missing instance or chat yields `[]`. -/
theorem GetChatMessages_spec (m : Manager) (i c : String) (limit : Int) :
    ∃ r, GetChatMessages m i c limit = .ok r ∧
      r.length ≤ (chatMessages m i c).length ∧
      r <:+ chatMessages m i c ∧
      (0 < limit →
        r = (chatMessages m i c).drop
              ((chatMessages m i c).length - limit.toNat) ∧
        r.length = min limit.toNat (chatMessages m i c).length) ∧
      (chatMessages m i c = [] → r = []) := by
  cases hI : mapLookup m.messages i with
  | none =>
    refine ⟨[], ?_, ?_, ?_, ?_, ?_⟩ <;>
      simp [GetChatMessages, chatMessages, hI, mapLookup]
  | some chatMap =>
    cases hC : mapLookup chatMap c with
    | none =>
      refine ⟨[], ?_, ?_, ?_, ?_, ?_⟩ <;>
        simp [GetChatMessages, chatMessages, hI, hC, mapLookup]
    | some msgs =>
      have hcm : chatMessages m i c = msgs := by
        simp [chatMessages, hI, hC]
      by_cases hlim : 0 < limit ∧ limit < (msgs.length : Int)
      · refine ⟨msgs.drop (msgs.length - limit.toNat), ?_, ?_, ?_, ?_, ?_⟩
        · simp [GetChatMessages, hI, hC, hlim]
        · rw [hcm, List.length_drop]
          omega
        · rw [hcm]
          exact List.drop_suffix _ _
        · intro _
          rw [hcm]
          refine ⟨rfl, ?_⟩
          rw [List.length_drop]
          omega
        · intro hmt
          rw [hcm] at hmt
          subst hmt
          simp
      · refine ⟨msgs, ?_, ?_, ?_, ?_, ?_⟩
        · simp [GetChatMessages, hI, hC, hlim]
        · rw [hcm]
        · rw [hcm]
        · intro hpos
          have hle : (msgs.length : Int) ≤ limit := by
            rcases not_and_or.mp hlim with hx | hx
            · exact absurd hpos hx
            · omega
          rw [hcm]
          constructor
          · have h0 : msgs.length - limit.toNat = 0 := by omega
            rw [h0, List.drop_zero]
          · omega
        · intro hmt
          rw [hcm] at hmt
          exact hmt

/-- Witness for C4 at a concrete cache: of three stored messages, limit 2
returns exactly the last two. -/
theorem GetChatMessages_spec_witness :
    GetChatMessages mgrMsgs "i" "c" 2 = .ok [msgN 2, msgN 3] := by
  obtain ⟨r, h1, -, -, h4, -⟩ := GetChatMessages_spec mgrMsgs "i" "c" 2
  obtain ⟨h5, -⟩ := h4 (by norm_num)
  rw [h1, h5]
  rfl

/-- Counterexample to claim C8 as stated: on the transition into
`connected` (the `events.Connected` handler) the `pairingCode` field is
NOT cleared, and the transition into `disconnected` (the
`events.Disconnected` handler) clears neither the QR payload nor the
pairing code. -/
theorem clear_transient_cex :
    (onConnected instQR (some "5511999") "Name").pairingCode = "ABCD-EFGH" ∧
    (onDisconnected instQR).qrCode = "QRDATA" ∧
    (onDisconnected instQR).qrCodeBase64 = "data:image/png;base64,AAAA" ∧
    (onDisconnected instQR).pairingCode = "ABCD-EFGH" :=
  ⟨rfl, rfl, rfl, rfl⟩

/-- Claim C8 (corrected): the transition into `connected` clears the two
QR fields (`qrCode`, `qrCodeBase64`) but preserves `pairingCode`; the
transition into `disconnected` changes only the status and clears none of
the three transient fields. -/
theorem clear_transient_amended (inst : Instance) (storeID : Option String)
    (pushName : String) :
    (onConnected inst storeID pushName).status = "connected" ∧
    (onConnected inst storeID pushName).qrCode = "" ∧
    (onConnected inst storeID pushName).qrCodeBase64 = "" ∧
    (onConnected inst storeID pushName).pairingCode = inst.pairingCode ∧
    (onDisconnected inst).status = "disconnected" ∧
    (onDisconnected inst).qrCode = inst.qrCode ∧
    (onDisconnected inst).qrCodeBase64 = inst.qrCodeBase64 ∧
    (onDisconnected inst).pairingCode = inst.pairingCode :=
  ⟨rfl, rfl, rfl, rfl, rfl, rfl, rfl, rfl⟩

/-- Claim C10 (confirmed): when the library logout call fails, `Logout`
returns the wrapped error, the returned state is the input state
unchanged — the instance is still registered and the mapping intact —
and no transport disconnect is performed. -/
theorem Logout_atomic (lib : Lib) (m : Manager) (instanceID : String)
    (inst : Instance) (e : String)
    (h : mapLookup m.instances instanceID = some inst)
    (he : lib.logout = .error e) :
    Logout lib m instanceID
      = (.error ("failed to logout: " ++ e), m, [.libLogout]) ∧
    mapLookup (Logout lib m instanceID).2.1.instances instanceID
      = some inst ∧
    (Logout lib m instanceID).2.1.mapping = m.mapping ∧
    Effect.libDisconnect ∉ (Logout lib m instanceID).2.2 := by
  refine ⟨?_, ?_, ?_, ?_⟩ <;> simp [Logout, h, he]

/-- Witness for C10: a failing logout on registered id "a" leaves the
manager unchanged. -/
theorem Logout_atomic_witness :
    Logout libLogoutFails mgrAB "a"
      = (.error "failed to logout: logout boom", mgrAB, [.libLogout]) := by
  have h := Logout_atomic libLogoutFails mgrAB "a" instConnectedA
    "logout boom" (by rfl) (by rfl)
  exact h.1

/-- Counterexample to claim C1 as stated: after a successful `Logout` of
registered id "a" the in-memory instance is gone, but the durable
SessionMapping entry for "a" is still found — the code never deletes from
`mapping` — refuting "a subsequent lookup of the id finds neither". -/
theorem Logout_mapping_cex :
    (Logout libOk mgrAB "a").1 = .ok () ∧
    mapLookup (Logout libOk mgrAB "a").2.1.instances "a" = none ∧
    mapLookup (Logout libOk mgrAB "a").2.1.mapping "a"
      = some "5511999:1@s.whatsapp.net" := by
  refine ⟨rfl, ?_, rfl⟩
  rfl

/-- Claim C1 (corrected): for a registered id, `Logout` invokes the
library logout, disconnects the transport and removes the in-memory
Instance from the registry map, and an unknown id yields a not-found
error — but the SessionMapping entry is NOT removed: `mapping` is left
entirely unchanged, so a lookup of the id still finds it. -/
theorem Logout_spec_amended (lib : Lib) (m : Manager) (instanceID : String) :
    (mapLookup m.instances instanceID = none →
      Logout lib m instanceID
        = (.error ("instance " ++ instanceID ++ " not found"), m, [])) ∧
    (∀ inst, mapLookup m.instances instanceID = some inst →
      lib.logout = .ok () →
      (Logout lib m instanceID).1 = .ok () ∧
      (Logout lib m instanceID).2.2 = [.libLogout, .libDisconnect] ∧
      mapLookup (Logout lib m instanceID).2.1.instances instanceID = none ∧
      (Logout lib m instanceID).2.1.mapping = m.mapping) := by
  constructor
  · intro hn
    simp [Logout, hn]
  · intro inst h hok
    refine ⟨?_, ?_, ?_, ?_⟩ <;>
      simp [Logout, h, hok, mapLookup_mapErase_self]

/-- Witness for C1's amended statement on registered id "a" with a
successful logout. -/
theorem Logout_spec_amended_witness :
    (Logout libOk mgrAB "a").1 = .ok () ∧
    (Logout libOk mgrAB "a").2.1.mapping = mgrAB.mapping := by
  have h := (Logout_spec_amended libOk mgrAB "a").2 instConnectedA
    (by rfl) (by rfl)
  exact ⟨h.1, h.2.2.2⟩

/-- Claim C5 (confirmed): `publishEvent` is a total function — the
publisher never blocks — that delivers the (stamped) event once, appended
at the tail, to each currently registered subscriber channel of
`evt.instanceId` with free capacity, leaves full channels unchanged
(the event is dropped for them), does not touch any other instance id's
subscribers or any other manager state, and an id with zero registered
subscribers causes no error and no change at all. -/
theorem publishEvent_spec (now : Int) (m : Manager) (evt : Event) :
    (mapLookup m.eventSubs evt.instanceId = none →
      publishEvent now m evt = m) ∧
    (∀ j, j ≠ evt.instanceId →
      mapLookup (publishEvent now m evt).eventSubs j
        = mapLookup m.eventSubs j) ∧
    (publishEvent now m evt).instances = m.instances ∧
    (publishEvent now m evt).mapping = m.mapping ∧
    (publishEvent now m evt).messages = m.messages ∧
    (∀ subs, mapLookup m.eventSubs evt.instanceId = some subs →
      ∃ subs2,
        mapLookup (publishEvent now m evt).eventSubs evt.instanceId
          = some subs2 ∧
        subs2.length = subs.length ∧
        ∀ k (hk : k < subs.length) (hk2 : k < subs2.length),
          subs2.get ⟨k, hk2⟩ =
            if (subs.get ⟨k, hk⟩).buf.length < (subs.get ⟨k, hk⟩).capacity
            then { subs.get ⟨k, hk⟩ with
                   buf := (subs.get ⟨k, hk⟩).buf ++ [stampEvent now evt] }
            else subs.get ⟨k, hk⟩) := by
  cases h : mapLookup m.eventSubs evt.instanceId with
  | none =>
    refine ⟨fun _ => ?_, fun j hj => ?_, ?_, ?_, ?_, fun subs hs => ?_⟩
    · simp [publishEvent, h]
    · simp [publishEvent, h]
    · simp [publishEvent, h]
    · simp [publishEvent, h]
    · simp [publishEvent, h]
    · cases hs
  | some subs0 =>
    refine ⟨fun hn => ?_, fun j hj => ?_, ?_, ?_, ?_, fun subs hs => ?_⟩
    · cases hn
    · simp [publishEvent, h, mapLookup_mapInsert_ne _ _ _ _ hj]
    · simp [publishEvent, h]
    · simp [publishEvent, h]
    · simp [publishEvent, h]
    · injection hs with hs
      subst hs
      refine ⟨List.map (fun c => chanTrySend c (stampEvent now evt)) subs0,
        ?_, by simp, ?_⟩
      · simp [publishEvent, h, mapLookup_mapInsert_self]
      · intro k hk hk2
        simp [List.get_eq_getElem, List.getElem_map, chanTrySend]

/-- Witness for C5 at a concrete registry: the full subscriber channel of
"a" is skipped, the free one receives the event; publishing to the
subscriber-less id "zzz" changes nothing. -/
theorem publishEvent_spec_witness :
    publishEvent 7 mgrSubs { type := "x", instanceId := "zzz" } = mgrSubs ∧
    mapLookup (publishEvent 7 mgrSubs evA).eventSubs "a"
      = some [chanFull, { chanFree with buf := [evA] }] := by
  constructor
  · exact (publishEvent_spec 7 mgrSubs { type := "x", instanceId := "zzz" }).1
      (by rfl)
  · rfl

/-- Claim C9 (confirmed): `Disconnect` on an unknown id returns a
not-found error and changes nothing; on a known id it returns ok, tears
down the transport only, and the stored instance keeps every field except
`status` — in particular its identity (`storeID`) — while registry
membership, the SessionMapping and all other instances stay untouched; a
subsequent successful `Connect`, with no intervening `Logout`, resumes
on the same identity (no re-pairing). -/
theorem Disconnect_spec (lib : Lib) (m : Manager) (instanceID : String) :
    (mapLookup m.instances instanceID = none →
      Disconnect m instanceID
        = (.error ("instance " ++ instanceID ++ " not found"), m, [])) ∧
    (∀ inst, mapLookup m.instances instanceID = some inst →
      (Disconnect m instanceID).1 = .ok () ∧
      (Disconnect m instanceID).2.2 = [.libDisconnect] ∧
      mapLookup (Disconnect m instanceID).2.1.instances instanceID
        = some { inst with status := "disconnected" } ∧
      (∀ j, j ≠ instanceID →
        mapLookup (Disconnect m instanceID).2.1.instances j
          = mapLookup m.instances j) ∧
      (Disconnect m instanceID).2.1.mapping = m.mapping ∧
      (Disconnect m instanceID).2.1.messages = m.messages ∧
      (lib.connect = .ok () →
        ∃ r, (Connect lib (Disconnect m instanceID).2.1 instanceID).1
            = .ok r ∧
          r.storeID = inst.storeID ∧ r.id = inst.id ∧
          r.status = "connecting")) := by
  constructor
  · intro hn
    simp [Disconnect, hn]
  · intro inst h
    have hd : mapLookup (Disconnect m instanceID).2.1.instances instanceID
        = some { inst with status := "disconnected" } := by
      simp [Disconnect, h, Manager.setInstance, mapLookup_mapInsert_self]
    refine ⟨?_, ?_, hd, ?_, ?_, ?_, ?_⟩
    · simp [Disconnect, h]
    · simp [Disconnect, h]
    · intro j hj
      simp [Disconnect, h, Manager.setInstance,
        mapLookup_mapInsert_ne _ _ _ _ hj]
    · simp [Disconnect, h, Manager.setInstance]
    · simp [Disconnect, h, Manager.setInstance]
    · intro hok
      refine ⟨{ inst with status := "connecting" }, ?_, rfl, rfl, rfl⟩
      simp [Connect, GetOrCreateInstance, hd, hok]

/-- Witness for C9 on registered id "a": disconnect keeps the identity and
a follow-up connect resumes on it. -/
theorem Disconnect_spec_witness :
    (Disconnect mgrAB "a").1 = .ok () ∧
    mapLookup (Disconnect mgrAB "a").2.1.instances "a"
      = some { instConnectedA with status := "disconnected" } ∧
    (Disconnect mgrAB "a").2.1.mapping = mgrAB.mapping := by
  have h := (Disconnect_spec libOk mgrAB "a").2 instConnectedA (by rfl)
  exact ⟨h.1, h.2.2.1, h.2.2.2.2.1⟩

/-- An instance handed out by `GetOrCreateInstance` with status
`connected` can only have come from the live registry (fresh and
rehydrated instances start `disconnected`), so the manager is unchanged. -/
theorem getOrCreate_connected_found (lib : Lib) (m : Manager)
    (instanceID : String) (inst : Instance) (m1 : Manager)
    (h : GetOrCreateInstance lib m instanceID = (inst, m1))
    (hst : inst.status = "connected") :
    mapLookup m.instances instanceID = some inst ∧ m1 = m := by
  unfold GetOrCreateInstance at h
  split at h
  · rename_i i hL
    rw [Prod.mk.injEq] at h
    obtain ⟨h1, h2⟩ := h
    subst h1
    subst h2
    exact ⟨hL, rfl⟩
  · rename_i hL
    exfalso
    split at h
    · split at h <;>
        · rw [Prod.mk.injEq] at h
          rw [← h.1] at hst
          simp [newInstance] at hst
    · rw [Prod.mk.injEq] at h
      rw [← h.1] at hst
      simp [newInstance] at hst

/-- Claim C6 (confirmed): when the instance handed out for `id` is already
`connected`, `Connect` returns it with the manager unchanged and no
library call; otherwise it stores status `connecting`, performs exactly
the library connect call, and on failure stores status `disconnected` and
returns the wrapped error. -/
theorem Connect_spec (lib : Lib) (m : Manager) (instanceID : String)
    (inst : Instance) (m1 : Manager)
    (h : GetOrCreateInstance lib m instanceID = (inst, m1)) :
    (inst.status = "connected" →
      Connect lib m instanceID = (.ok inst, m, [])) ∧
    (inst.status ≠ "connected" →
      (Connect lib m instanceID).2.2 = [.libConnect] ∧
      (lib.connect = .ok () →
        (Connect lib m instanceID).1
          = .ok { inst with status := "connecting" } ∧
        mapLookup (Connect lib m instanceID).2.1.instances instanceID
          = some { inst with status := "connecting" }) ∧
      (∀ e, lib.connect = .error e →
        (Connect lib m instanceID).1
          = .error ("failed to connect: " ++ e) ∧
        mapLookup (Connect lib m instanceID).2.1.instances instanceID
          = some { inst with status := "disconnected" })) := by
  constructor
  · intro hst
    obtain ⟨-, hm⟩ :=
      getOrCreate_connected_found lib m instanceID inst m1 h hst
    subst hm
    simp [Connect, h, hst]
  · intro hst
    refine ⟨?_, ?_, ?_⟩
    · cases hc : lib.connect with
      | ok u => simp [Connect, h, hst, hc]
      | error e => simp [Connect, h, hst, hc]
    · intro hok
      constructor <;>
        simp [Connect, h, hst, hok, Manager.setInstance,
          mapLookup_mapInsert_self]
    · intro e he
      constructor <;>
        simp [Connect, h, hst, he, Manager.setInstance,
          mapLookup_mapInsert_self]

/-- Witness for C6: connecting the already-connected "a" is a no-op
returning the instance; connecting the disconnected "b" moves it to
`connecting`. -/
theorem Connect_spec_witness :
    Connect libOk mgrAB "a" = (.ok instConnectedA, mgrAB, []) ∧
    (Connect libOk mgrAB "b").1
      = .ok { instDiscB with status := "connecting" } := by
  constructor
  · exact (Connect_spec libOk mgrAB "a" instConnectedA mgrAB (by rfl)).1
      (by rfl)
  · exact (((Connect_spec libOk mgrAB "b" instDiscB mgrAB (by rfl)).2
      (by decide)).2.1 (by rfl)).1

/-- Claim C7 (confirmed): `ConnectWithPairingCode` errors without
requesting a pairing code when the instance is already `connected` or
already paired (`storeID` present); when the transport is not live after
the bounded wait it stores status `disconnected` and fails with the
connectivity error — again without a pairing-code request; and a pairing
code is returned exactly on the brand-new (`storeID = none`),
transport-live path whose `PairPhone` call succeeds. -/
theorem ConnectWithPairingCode_spec (lib : Lib) (m : Manager)
    (instanceID phoneNumber : String) (inst : Instance) (m1 : Manager)
    (h : GetOrCreateInstance lib m instanceID = (inst, m1)) :
    (inst.status = "connected" →
      ConnectWithPairingCode lib m instanceID phoneNumber
        = (.error "already connected", m1, [])) ∧
    (inst.status ≠ "connected" → inst.storeID.isSome →
      ConnectWithPairingCode lib m instanceID phoneNumber
        = (.error "already has a session, use QR code or disconnect first",
           m1, [])) ∧
    (inst.status ≠ "connected" → inst.storeID = none →
      lib.isConnectedPost = false →
      (∀ ph, Effect.pairPhone ph
          ∉ (ConnectWithPairingCode lib m instanceID phoneNumber).2.2) ∧
      ((lib.isConnectedPre = true ∨ lib.connect = .ok ()) →
        (ConnectWithPairingCode lib m instanceID phoneNumber).1
          = .error "failed to establish connection to WhatsApp servers" ∧
        mapLookup (ConnectWithPairingCode lib m instanceID
            phoneNumber).2.1.instances instanceID
          = some { inst with status := "disconnected" })) ∧
    (inst.status ≠ "connected" → inst.storeID = none →
      lib.isConnectedPre = false → ∀ e, lib.connect = .error e →
      (ConnectWithPairingCode lib m instanceID phoneNumber).1
        = .error ("failed to connect: " ++ e) ∧
      (ConnectWithPairingCode lib m instanceID phoneNumber).2.2
        = [.libConnect] ∧
      mapLookup (ConnectWithPairingCode lib m instanceID
          phoneNumber).2.1.instances instanceID
        = some { inst with status := "disconnected" }) ∧
    (inst.status ≠ "connected" → inst.storeID = none →
      lib.isConnectedPost = true →
      (lib.isConnectedPre = true ∨ lib.connect = .ok ()) →
      ∀ code, lib.pairPhone (cleanNumber phoneNumber) = .ok code →
      (ConnectWithPairingCode lib m instanceID phoneNumber).1
        = .ok (formatPairingCode code)) := by
  refine ⟨?_, ?_, ?_, ?_, ?_⟩
  · intro hst
    simp [ConnectWithPairingCode, h, hst]
  · intro hst hsid
    simp [ConnectWithPairingCode, h, hst, hsid]
  · intro hst hsid hpost
    constructor
    · intro ph
      cases hpre : lib.isConnectedPre with
      | true =>
        simp [ConnectWithPairingCode, h, hst, hsid, hpre,
          requestPairingCode, hpost]
      | false =>
        cases hc : lib.connect with
        | error e =>
          simp [ConnectWithPairingCode, h, hst, hsid, hpre, hc]
        | ok u =>
          simp [ConnectWithPairingCode, h, hst, hsid, hpre, hc,
            requestPairingCode, hpost]
    · rintro (hpre | hc)
      · constructor <;>
          simp [ConnectWithPairingCode, h, hst, hsid, hpre,
            requestPairingCode, hpost, Manager.setInstance,
            mapLookup_mapInsert_self]
      · cases hpre : lib.isConnectedPre with
        | true =>
          constructor <;>
            simp [ConnectWithPairingCode, h, hst, hsid, hpre,
              requestPairingCode, hpost, Manager.setInstance,
              mapLookup_mapInsert_self]
        | false =>
          constructor <;>
            simp [ConnectWithPairingCode, h, hst, hsid, hpre, hc,
              requestPairingCode, hpost, Manager.setInstance,
              mapLookup_mapInsert_self]
  · intro hst hsid hpre e hc
    refine ⟨?_, ?_, ?_⟩ <;>
      simp [ConnectWithPairingCode, h, hst, hsid, hpre, hc,
        Manager.setInstance, mapLookup_mapInsert_self]
  · intro hst hsid hpost hlive code hcode
    rcases hlive with hpre | hc
    · simp [ConnectWithPairingCode, h, hst, hsid, hpre,
        requestPairingCode, hpost, hcode]
    · cases hpre : lib.isConnectedPre with
      | true =>
        simp [ConnectWithPairingCode, h, hst, hsid, hpre,
          requestPairingCode, hpost, hcode]
      | false =>
        simp [ConnectWithPairingCode, h, hst, hsid, hpre, hc,
          requestPairingCode, hpost, hcode]

/-- Witness for C7: a brand-new instance on a live transport receives the
formatted pairing code. -/
theorem ConnectWithPairingCode_spec_witness :
    (ConnectWithPairingCode libOk emptyManager "n" "+55 11 9-9999").1
      = .ok "CODE-CODE" := by
  have h := ConnectWithPairingCode_spec libOk emptyManager "n"
    "+55 11 9-9999" (newInstance "n" none)
    (emptyManager.setInstance "n" (newInstance "n" none)) (by rfl)
  have h5 := h.2.2.2.2 (by decide) rfl rfl (Or.inl rfl) "CODECODE" (by rfl)
  rw [h5]
  rfl

/-- Counterexample to claim C2 as stated: instance "b" is registered with
status `disconnected`, yet `SendMediaMessage` performs identity
resolution, media fetch, upload and dispatch — and even succeeds —
instead of failing fast with a "not connected" error and no network
call. The source's `SendMediaMessage` has no connected-status check. -/
theorem SendMediaMessage_guard_cex :
    instDiscB.status ≠ "connected" ∧
    mapLookup mgrAB.instances "b" = some instDiscB ∧
    (SendMediaMessage libResolves mgrAB "b" "+5522" "http://x/a.png"
        "cap" "image").1
      = .ok "MSGID1" ∧
    (SendMediaMessage libResolves mgrAB "b" "+5522" "http://x/a.png"
        "cap" "image").2
      = [.isOnWhatsApp "5522", .fetchMedia "http://x/a.png", .upload,
         .sendMessage "5522@s.whatsapp.net"] := by
  refine ⟨by decide, rfl, rfl, rfl⟩

/-- Claim C2 (corrected): for a registered instance whose status is not
`connected`, the text, presence, location, poll, edit, react and delete
operations all fail fast with an error and an empty library-call trace —
but `SendMediaMessage` is the exception: it performs no status check and
always begins with the `IsOnWhatsApp` identity resolution regardless of
the status. -/
theorem send_guard_amended (lib : Lib) (m : Manager) (instanceID : String)
    (inst : Instance) (h : mapLookup m.instances instanceID = some inst)
    (hst : inst.status ≠ "connected") :
    (∀ a b, ∃ e, SendTextMessage lib m instanceID a b = (.error e, [])) ∧
    (∀ a b, ∃ e, SendPresence lib m instanceID a b = (.error e, [])) ∧
    (∀ a la lo d, ∃ e,
      SendLocationMessage lib m instanceID a la lo d = (.error e, [])) ∧
    (∀ a q os cnt, ∃ e,
      SendPollMessage lib m instanceID a q os cnt = (.error e, [])) ∧
    (∀ a b c, ∃ e, EditMessage lib m instanceID a b c = (.error e, [])) ∧
    (∀ a b c, ∃ e, ReactToMessage lib m instanceID a b c = (.error e, [])) ∧
    (∀ a b fe, ∃ e, DeleteMessage lib m instanceID a b fe = (.error e, [])) ∧
    (∀ a u c mt, ∃ rest,
      (SendMediaMessage lib m instanceID a u c mt).2
        = Effect.isOnWhatsApp (trimPlus a) :: rest) := by
  refine ⟨?_, ?_, ?_, ?_, ?_, ?_, ?_, ?_⟩
  · exact fun a b =>
      ⟨"instance not connected (status: " ++ inst.status ++ ")",
       by simp [SendTextMessage, h, hst]⟩
  · exact fun a b =>
      ⟨"instance not connected", by simp [SendPresence, h, hst]⟩
  · exact fun a la lo d =>
      ⟨"instance not connected", by simp [SendLocationMessage, h, hst]⟩
  · exact fun a q os cnt =>
      ⟨"instance not connected", by simp [SendPollMessage, h, hst]⟩
  · exact fun a b c =>
      ⟨"instance not connected", by simp [EditMessage, h, hst]⟩
  · exact fun a b c =>
      ⟨"instance not connected", by simp [ReactToMessage, h, hst]⟩
  · exact fun a b fe =>
      ⟨"instance not connected", by simp [DeleteMessage, h, hst]⟩
  · intro a u c mt
    cases hio : lib.isOnWhatsApp (trimPlus a) with
    | error e0 => exact ⟨[], by simp [SendMediaMessage, h, hio]⟩
    | ok users =>
      cases users with
      | nil => exact ⟨[], by simp [SendMediaMessage, h, hio]⟩
      | cons u0 us =>
        cases hf : lib.fetchMedia u with
        | error e0 =>
          exact ⟨[.fetchMedia u], by simp [SendMediaMessage, h, hio, hf]⟩
        | ok mm =>
          cases hup : lib.upload with
          | error e0 =>
            exact ⟨[.fetchMedia u, .upload],
              by simp [SendMediaMessage, h, hio, hf, hup]⟩
          | ok uu =>
            cases hs : lib.sendMessage u0.jid with
            | error e0 =>
              exact ⟨[.fetchMedia u, .upload, .sendMessage u0.jid],
                by simp [SendMediaMessage, h, hio, hf, hup, hs]⟩
            | ok mid =>
              exact ⟨[.fetchMedia u, .upload, .sendMessage u0.jid],
                by simp [SendMediaMessage, h, hio, hf, hup, hs]⟩

/-- Witness for C2's amended statement: concrete disconnected instance
"b" — text send produces no library call, media send starts with
identity resolution. -/
theorem send_guard_amended_witness :
    (SendTextMessage libOk mgrAB "b" "+5522" "hi").2 = [] ∧
    (∃ rest, (SendMediaMessage libOk mgrAB "b" "+5522" "u" "c" "t").2
      = Effect.isOnWhatsApp "5522" :: rest) := by
  have h := send_guard_amended libOk mgrAB "b" instDiscB (by rfl) (by decide)
  constructor
  · obtain ⟨e, he⟩ := h.1 "+5522" "hi"
    rw [he]
  · have h8 := h.2.2.2.2.2.2.2 "+5522" "u" "c" "t"
    have ht : trimPlus "+5522" = "5522" := rfl
    rw [ht] at h8
    exact h8
